import Mathlib

/-!
Verification of the seat-reservation lease registry implemented in
`src/models/seatModel.js`.

The JavaScript module keeps an in-memory map from seat identifiers to seat
records and serializes all writes on a given seat behind a per-seat mutex;
each critical section is a synchronous block (no `await` between the mutex
acquisition and the return), so every operation is embedded here as a pure
function from the registry state to a (result, new state) pair, and a run of
concurrent operations is embedded as a sequence of such calls.

Conventions of the embedding:
* JavaScript `Date` values are milliseconds-since-epoch naturals; each
  `new Date()` call inside a critical section becomes an explicit time
  parameter of the embedded function.
* `null` fields become `Option` values.  JavaScript's `now > seat.lockExpiresAt`
  coerces `null` to `0`, which is embedded as `Option.getD 0`.
* The seat map (a JS object) is an association list from seat id to record;
  `seats[id]` reads are `findSeat`, in-place mutation of the record stored at
  an existing id is `setSeat`.
* The `uuid` library is not part of this repository's sources, so the fresh
  lease identifier produced by `uuidv4()` is an explicit parameter of
  `lockSeat`; where a claim relies on the generator's output being unique and
  non-empty, that is a hypothesis (the spec describes the generator as
  producing globally unique opaque tokens).
-/

/-- Seat states, `SEAT_STATUS` in the source. -/
inductive SeatStatus where
  | available
  | locked
  | booked
deriving DecidableEq, Repr

/-- Lock duration in milliseconds (1 minute), `LOCK_DURATION` in the source. -/
def LOCK_DURATION : Nat := 60 * 1000

/-- A seat record, the object stored in the `seats` map. -/
structure Seat where
  id : String
  row : String
  number : Nat
  status : SeatStatus
  userId : Option String
  lockId : Option String
  lockedAt : Option Nat
  lockExpiresAt : Option Nat
  bookedAt : Option Nat
deriving DecidableEq, Repr

/-- The registry state: the in-memory `seats` object, keyed by seat id. -/
abbrev Seats := List (String × Seat)

/-- One freshly initialized seat record (the object literal in
`initializeSeats`). -/
def mkSeat (row : String) (n : Nat) : Seat :=
  { id := row ++ toString n
    row := row
    number := n
    status := SeatStatus.available
    userId := none
    lockId := none
    lockedAt := none
    lockExpiresAt := none
    bookedAt := none }

/-- `initializeSeats`: 5 rows `A`..`E` of 8 seats each, all available. -/
def initializeSeats : Seats :=
  (["A", "B", "C", "D", "E"].map (fun row =>
    (List.range 8).map (fun i => (row ++ toString (i + 1), mkSeat row (i + 1))))).flatten

/-- Read `seats[seatId]` (returns the record when the key is present). -/
def findSeat (seatId : String) : Seats → Option Seat
  | [] => none
  | (k, s) :: rest => if k = seatId then some s else findSeat seatId rest

/-- In-place mutation of the record stored at `seatId` (a no-op when the key
is absent, matching the source, which only mutates a record it has already
read). -/
def setSeat (seats : Seats) (seatId : String) (s : Seat) : Seats :=
  match seats with
  | [] => []
  | (k, s0) :: rest =>
    if k = seatId then (k, s) :: setSeat rest seatId s
    else (k, s0) :: setSeat rest seatId s

/-- The test `seat.status === LOCKED && seat.lockExpiresAt && now > seat.lockExpiresAt`
from `cleanupExpiredLocks` (a `Date` object is always truthy, so the middle
conjunct is a null check). -/
def lockExpired (now : Nat) (s : Seat) : Bool :=
  s.status = SeatStatus.locked &&
    match s.lockExpiresAt with
    | some e => decide (now > e)
    | none => false

/-- The mutation `cleanupExpiredLocks` applies to one expired seat. -/
def expireSeat (now : Nat) (s : Seat) : Seat :=
  if lockExpired now s then
    { s with status := SeatStatus.available
             userId := none
             lockId := none
             lockedAt := none
             lockExpiresAt := none }
  else s

/-- `cleanupExpiredLocks`: sweep every seat of the registry, reclaiming those
whose lock has expired at `now` (the single `new Date()` of the sweep). -/
def cleanupExpiredLocks (now : Nat) (seats : Seats) : Seats :=
  seats.map (fun p => (p.1, expireSeat now p.2))

/-- Result of `SeatModel.lockSeat`, one constructor per `return` site. -/
inductive LockOutcome where
  /-- `{ success: false, error: 'Seat not found' }` -/
  | notFound
  /-- `{ success: false, error: ..., currentStatus: seat.status }` -/
  | conflict (currentStatus : SeatStatus)
  /-- `{ success: true, lockId, lockExpiresAt, seat }` -/
  | success (lockId : String) (lockExpiresAt : Nat) (seat : Seat)
deriving DecidableEq, Repr

/-- `SeatModel.lockSeat(seatId, userId)`.  `freshLockId` is the `uuidv4()`
result; `now` is the time of the critical section (the sweep's `new Date()`
and the `lockedAt = new Date()` a few lines later, taken at one instant). -/
def lockSeat (seats : Seats) (seatId userId freshLockId : String) (now : Nat) :
    LockOutcome × Seats :=
  let seats1 := cleanupExpiredLocks now seats
  match findSeat seatId seats1 with
  | none => (LockOutcome.notFound, seats1)
  | some seat =>
    if seat.status ≠ SeatStatus.available then
      (LockOutcome.conflict seat.status, seats1)
    else
      let locked := { seat with
        status := SeatStatus.locked
        userId := some userId
        lockId := some freshLockId
        lockedAt := some now
        lockExpiresAt := some (now + LOCK_DURATION) }
      (LockOutcome.success freshLockId (now + LOCK_DURATION) locked,
        setSeat seats1 seatId locked)

/-- Result of `SeatModel.confirmBooking`, one constructor per `return` site. -/
inductive ConfirmOutcome where
  /-- `'Seat not found'` -/
  | notFound
  /-- `'Seat ... is not locked. Current status: ...'` -/
  | notLocked (currentStatus : SeatStatus)
  /-- `'Seat ... is locked by another user'` -/
  | wrongUser
  /-- `'Invalid lock ID for seat ...'` -/
  | invalidLockId
  /-- `'Lock for seat ... has expired'` -/
  | lockExpired
  /-- `{ success: true, seat }` -/
  | success (seat : Seat)
deriving DecidableEq, Repr

/-- `SeatModel.confirmBooking(seatId, userId, lockId)`.  `t1` is the instant
of the lazy sweep at the top of the critical section, `t2` the instant of the
later `new Date()` calls (the expiry check and `bookedAt`). -/
def confirmBooking (seats : Seats) (seatId userId lockId : String) (t1 t2 : Nat) :
    ConfirmOutcome × Seats :=
  let seats1 := cleanupExpiredLocks t1 seats
  match findSeat seatId seats1 with
  | none => (ConfirmOutcome.notFound, seats1)
  | some seat =>
    if seat.status ≠ SeatStatus.locked then
      (ConfirmOutcome.notLocked seat.status, seats1)
    else if seat.userId ≠ some userId then
      (ConfirmOutcome.wrongUser, seats1)
    else if seat.lockId ≠ some lockId then
      (ConfirmOutcome.invalidLockId, seats1)
    else if t2 > seat.lockExpiresAt.getD 0 then
      let cleared := { seat with
        status := SeatStatus.available
        userId := none
        lockId := none
        lockedAt := none
        lockExpiresAt := none }
      (ConfirmOutcome.lockExpired, setSeat seats1 seatId cleared)
    else
      let booked := { seat with
        status := SeatStatus.booked
        bookedAt := some t2
        lockId := none
        lockedAt := none
        lockExpiresAt := none }
      (ConfirmOutcome.success booked, setSeat seats1 seatId booked)

/-- Result of `SeatModel.unlockSeat`, one constructor per `return` site. -/
inductive UnlockOutcome where
  /-- `'Seat not found'` -/
  | notFound
  /-- `'Seat ... is not locked. Current status: ...'` -/
  | notLocked (currentStatus : SeatStatus)
  /-- `'Cannot unlock seat ... Invalid user or lock ID'` -/
  | mismatch
  /-- `{ success: true, seat }` -/
  | success (seat : Seat)
deriving DecidableEq, Repr

/-- `SeatModel.unlockSeat(seatId, userId, lockId)`.  Note: unlike `lockSeat`
and `confirmBooking`, the source performs no `cleanupExpiredLocks()` call and
no `new Date()` call here, so the function takes no time parameter. -/
def unlockSeat (seats : Seats) (seatId userId lockId : String) :
    UnlockOutcome × Seats :=
  match findSeat seatId seats with
  | none => (UnlockOutcome.notFound, seats)
  | some seat =>
    if seat.status ≠ SeatStatus.locked then
      (UnlockOutcome.notLocked seat.status, seats)
    else if seat.userId ≠ some userId ∨ seat.lockId ≠ some lockId then
      (UnlockOutcome.mismatch, seats)
    else
      let released := { seat with
        status := SeatStatus.available
        userId := none
        lockId := none
        lockedAt := none
        lockExpiresAt := none }
      (UnlockOutcome.success released, setSeat seats seatId released)

/-- `SeatModel.getSeatById`: sweep, then read. -/
def getSeatById (seats : Seats) (seatId : String) (now : Nat) :
    Option Seat × Seats :=
  let seats1 := cleanupExpiredLocks now seats
  (findSeat seatId seats1, seats1)

/-- `SeatModel.getAllSeats`: sweep, then `Object.values(seats)`. -/
def getAllSeats (seats : Seats) (now : Nat) : List Seat × Seats :=
  let seats1 := cleanupExpiredLocks now seats
  (seats1.map Prod.snd, seats1)

/-- The counters of `SeatModel.getStatistics`. -/
structure SeatStats where
  total : Nat
  available : Nat
  locked : Nat
  booked : Nat
deriving DecidableEq, Repr

/-- `SeatModel.getStatistics`: sweep, then count seats per status. -/
def getStatistics (seats : Seats) (now : Nat) : SeatStats × Seats :=
  let seats1 := cleanupExpiredLocks now seats
  ({ total := seats1.length
     available := seats1.countP (fun p => p.2.status = SeatStatus.available)
     locked := seats1.countP (fun p => p.2.status = SeatStatus.locked)
     booked := seats1.countP (fun p => p.2.status = SeatStatus.booked) },
   seats1)

/-- `SeatModel.resetSeats`: replace the whole registry with a fresh layout
(the mutex map is also cleared in the source; the embedding has no residual
lock state, operations being atomic). -/
def resetSeats (_seats : Seats) : Seats :=
  initializeSeats

/-- A run of `lockSeat` calls on one seat, each by one actor with one fresh
lease identifier, serialized (as the per-seat mutex serializes them) and all
arriving at the same instant `now`. -/
def lockSeatRun (seats : Seats) (seatId : String)
    (calls : List (String × String)) (now : Nat) : List LockOutcome × Seats :=
  match calls with
  | [] => ([], seats)
  | (userId, freshId) :: rest =>
    let r1 := lockSeat seats seatId userId freshId now
    let rrest := lockSeatRun r1.2 seatId rest now
    (r1.1 :: rrest.1, rrest.2)

/-- Whether a `lockSeat` result is the `success: true` shape. -/
def isLockSuccess : LockOutcome → Bool
  | LockOutcome.success _ _ _ => true
  | _ => false

/-- The per-seat record invariant stated by the spec: `Available` iff all
lease fields are null; `Leased` implies holder, lease id and both lease
timestamps set with `leaseExpiresAt = leaseIssuedAt + LEASE_TTL`; `Committed`
implies holder and commit timestamp set and lease fields cleared. -/
def SeatInv (s : Seat) : Prop :=
  (s.status = SeatStatus.available ↔
    s.userId = none ∧ s.lockId = none ∧ s.lockedAt = none ∧ s.lockExpiresAt = none) ∧
  (s.status = SeatStatus.locked →
    s.userId ≠ none ∧ s.lockId ≠ none ∧ s.lockedAt ≠ none ∧
    s.lockExpiresAt = s.lockedAt.map (fun a => a + LOCK_DURATION)) ∧
  (s.status = SeatStatus.booked →
    s.userId ≠ none ∧ s.bookedAt ≠ none ∧
    s.lockId = none ∧ s.lockedAt = none ∧ s.lockExpiresAt = none)

instance (s : Seat) : Decidable (SeatInv s) := by
  unfold SeatInv
  infer_instance

/-- All records of a registry satisfy the per-seat invariant. -/
def InvAll (seats : Seats) : Prop :=
  ∀ k s, findSeat k seats = some s → SeatInv s

/-- Registry states reachable from initialization by any sequence of the
model's operations (the sweep step also covers the read accessors and the
periodic `setInterval` sweep, whose state effect is exactly
`cleanupExpiredLocks`). -/
inductive Reachable : Seats → Prop where
  | init : Reachable initializeSeats
  | lock (seats : Seats) (seatId userId freshLockId : String) (now : Nat) :
      Reachable seats → Reachable (lockSeat seats seatId userId freshLockId now).2
  | confirm (seats : Seats) (seatId userId lockId : String) (t1 t2 : Nat) :
      Reachable seats → Reachable (confirmBooking seats seatId userId lockId t1 t2).2
  | unlock (seats : Seats) (seatId userId lockId : String) :
      Reachable seats → Reachable (unlockSeat seats seatId userId lockId).2
  | sweep (seats : Seats) (now : Nat) :
      Reachable seats → Reachable (cleanupExpiredLocks now seats)
  | reset (seats : Seats) : Reachable seats → Reachable (resetSeats seats)

/-! ### Basic lemmas about the registry representation -/

theorem findSeat_cleanup (now : Nat) (seats : Seats) (seatId : String) :
    findSeat seatId (cleanupExpiredLocks now seats)
      = (findSeat seatId seats).map (expireSeat now) := by
  induction seats with
  | nil => rfl
  | cons p rest ih =>
    obtain ⟨k, s⟩ := p
    by_cases h : k = seatId
    · simp [cleanupExpiredLocks, findSeat, h]
    · simp only [cleanupExpiredLocks] at ih
      simp [cleanupExpiredLocks, findSeat, h, ih]

theorem findSeat_setSeat (seats : Seats) (seatId : String) (s' : Seat) (k : String) :
    findSeat k (setSeat seats seatId s')
      = if k = seatId then (findSeat seatId seats).map (fun _ => s')
        else findSeat k seats := by
  induction seats with
  | nil => simp [setSeat, findSeat]
  | cons p rest ih =>
    obtain ⟨k', s0⟩ := p
    by_cases h1 : k' = seatId
    · subst h1
      by_cases h2 : k = k'
      · subst h2
        simp [setSeat, findSeat]
      · have h2' : ¬k' = k := fun h => h2 h.symm
        simp [setSeat, findSeat, h2, h2', ih]
    · by_cases h2 : k' = k
      · subst h2
        simp [setSeat, findSeat, h1]
      · simp [setSeat, findSeat, h1, h2, ih]

theorem expireSeat_of_not_expired (now : Nat) (s : Seat)
    (h : lockExpired now s = false) : expireSeat now s = s := by
  simp [expireSeat, h]

theorem lockExpired_expireSeat (now : Nat) (s : Seat) :
    lockExpired now (expireSeat now s) = false := by
  unfold expireSeat
  by_cases h : lockExpired now s = true
  · rw [if_pos h]
    rfl
  · rw [if_neg h]
    simpa using h

theorem expireSeat_idem (now : Nat) (s : Seat) :
    expireSeat now (expireSeat now s) = expireSeat now s :=
  expireSeat_of_not_expired now _ (lockExpired_expireSeat now s)

theorem cleanup_idem (now : Nat) (seats : Seats) :
    cleanupExpiredLocks now (cleanupExpiredLocks now seats)
      = cleanupExpiredLocks now seats := by
  simp [cleanupExpiredLocks, Function.comp, expireSeat_idem]

theorem mem_of_findSeat {k : String} {s : Seat} :
    ∀ {seats : Seats}, findSeat k seats = some s → (k, s) ∈ seats := by
  intro seats
  induction seats with
  | nil => intro h; simp [findSeat] at h
  | cons p rest ih =>
    obtain ⟨k', s'⟩ := p
    intro h
    by_cases hk : k' = k
    · subst hk
      simp [findSeat] at h
      simp [h]
    · simp only [findSeat, if_neg hk] at h
      exact List.mem_cons_of_mem _ (ih h)

/-! ### Claim theorems -/

/-- C3: when, after the expiration pass, the seat exists and is available,
`lockSeat` succeeds, locking the seat for `userId` with a fresh lock id,
`lockedAt = now`, `lockExpiresAt = now + LOCK_DURATION` (60000 ms), and
returns the lock id, the expiry, and the seat snapshot; a missing seat gives
the not-found error and a non-available seat the conflict error carrying the
current status. -/
theorem lockSeat_spec (seats : Seats) (seatId userId freshLockId : String) (now : Nat) :
    (findSeat seatId (cleanupExpiredLocks now seats) = none →
      lockSeat seats seatId userId freshLockId now
        = (LockOutcome.notFound, cleanupExpiredLocks now seats)) ∧
    (∀ seat, findSeat seatId (cleanupExpiredLocks now seats) = some seat →
      seat.status ≠ SeatStatus.available →
      lockSeat seats seatId userId freshLockId now
        = (LockOutcome.conflict seat.status, cleanupExpiredLocks now seats)) ∧
    (∀ seat, findSeat seatId (cleanupExpiredLocks now seats) = some seat →
      seat.status = SeatStatus.available →
      lockSeat seats seatId userId freshLockId now
        = (LockOutcome.success freshLockId (now + LOCK_DURATION)
             { seat with
               status := SeatStatus.locked
               userId := some userId
               lockId := some freshLockId
               lockedAt := some now
               lockExpiresAt := some (now + LOCK_DURATION) },
           setSeat (cleanupExpiredLocks now seats) seatId
             { seat with
               status := SeatStatus.locked
               userId := some userId
               lockId := some freshLockId
               lockedAt := some now
               lockExpiresAt := some (now + LOCK_DURATION) })) ∧
    LOCK_DURATION = 60000 := by
  refine ⟨?_, ?_, ?_, rfl⟩
  · intro h
    simp [lockSeat, h]
  · intro seat h hs
    simp [lockSeat, h, hs]
  · intro seat h hs
    simp [lockSeat, h, hs]

theorem lockSeat_spec_witness :
    findSeat "A1" (cleanupExpiredLocks 0 initializeSeats) = some (mkSeat "A" 1) ∧
    (mkSeat "A" 1).status = SeatStatus.available ∧
    lockSeat initializeSeats "A1" "alice" "L1" 0
      = (LockOutcome.success "L1" (0 + LOCK_DURATION)
           { mkSeat "A" 1 with
             status := SeatStatus.locked
             userId := some "alice"
             lockId := some "L1"
             lockedAt := some 0
             lockExpiresAt := some (0 + LOCK_DURATION) },
         setSeat (cleanupExpiredLocks 0 initializeSeats) "A1"
           { mkSeat "A" 1 with
             status := SeatStatus.locked
             userId := some "alice"
             lockId := some "L1"
             lockedAt := some 0
             lockExpiresAt := some (0 + LOCK_DURATION) }) :=
  ⟨by decide, by decide,
    (lockSeat_spec initializeSeats "A1" "alice" "L1" 0).2.2.1
      (mkSeat "A" 1) (by decide) (by decide)⟩

/-- C2: on an existing seat, after the lazy expiration pass `confirmBooking`
checks, in order: status locked (else the not-locked error), stored holder
(else the wrong-user error), stored lock id (else the invalid-lock-id error),
expiry (`t2` past `lockExpiresAt`: seat returns to available and the
lock-expired error); otherwise it books the seat at `t2`, clears the lease
fields and keeps the holder. -/
theorem confirmBooking_spec (seats : Seats) (seatId userId lockId : String)
    (t1 t2 : Nat) (seat : Seat)
    (hfind : findSeat seatId (cleanupExpiredLocks t1 seats) = some seat) :
    (seat.status ≠ SeatStatus.locked →
      confirmBooking seats seatId userId lockId t1 t2
        = (ConfirmOutcome.notLocked seat.status, cleanupExpiredLocks t1 seats)) ∧
    (seat.status = SeatStatus.locked → seat.userId ≠ some userId →
      confirmBooking seats seatId userId lockId t1 t2
        = (ConfirmOutcome.wrongUser, cleanupExpiredLocks t1 seats)) ∧
    (seat.status = SeatStatus.locked → seat.userId = some userId →
      seat.lockId ≠ some lockId →
      confirmBooking seats seatId userId lockId t1 t2
        = (ConfirmOutcome.invalidLockId, cleanupExpiredLocks t1 seats)) ∧
    (seat.status = SeatStatus.locked → seat.userId = some userId →
      seat.lockId = some lockId → t2 > seat.lockExpiresAt.getD 0 →
      confirmBooking seats seatId userId lockId t1 t2
        = (ConfirmOutcome.lockExpired,
           setSeat (cleanupExpiredLocks t1 seats) seatId
             { seat with
               status := SeatStatus.available
               userId := none
               lockId := none
               lockedAt := none
               lockExpiresAt := none })) ∧
    (seat.status = SeatStatus.locked → seat.userId = some userId →
      seat.lockId = some lockId → t2 ≤ seat.lockExpiresAt.getD 0 →
      confirmBooking seats seatId userId lockId t1 t2
        = (ConfirmOutcome.success
             { seat with
               status := SeatStatus.booked
               bookedAt := some t2
               lockId := none
               lockedAt := none
               lockExpiresAt := none },
           setSeat (cleanupExpiredLocks t1 seats) seatId
             { seat with
               status := SeatStatus.booked
               bookedAt := some t2
               lockId := none
               lockedAt := none
               lockExpiresAt := none }) ∧
      ({ seat with
         status := SeatStatus.booked
         bookedAt := some t2
         lockId := none
         lockedAt := none
         lockExpiresAt := none } : Seat).userId = seat.userId) := by
  refine ⟨?_, ?_, ?_, ?_, ?_⟩
  · intro h1
    simp [confirmBooking, hfind, h1]
  · intro h1 h2
    simp [confirmBooking, hfind, h1, h2]
  · intro h1 h2 h3
    simp [confirmBooking, hfind, h1, h2, h3]
  · intro h1 h2 h3 h4
    simp [confirmBooking, hfind, h1, h2, h3, h4]
  · intro h1 h2 h3 h4
    have h4' : ¬seat.lockExpiresAt.getD 0 < t2 := Nat.not_lt.2 h4
    refine ⟨?_, rfl⟩
    simp [confirmBooking, hfind, h1, h2, h3, h4']

theorem confirmBooking_spec_witness :
    findSeat "A1" (cleanupExpiredLocks 5 initializeSeats) = some (mkSeat "A" 1) ∧
    (mkSeat "A" 1).status ≠ SeatStatus.locked ∧
    confirmBooking initializeSeats "A1" "alice" "L1" 5 5
      = (ConfirmOutcome.notLocked SeatStatus.available,
         cleanupExpiredLocks 5 initializeSeats) :=
  ⟨by decide, by decide,
    (confirmBooking_spec initializeSeats "A1" "alice" "L1" 5 5 (mkSeat "A" 1)
        (by decide)).1 (by decide)⟩

/-- C7: on an existing seat, `unlockSeat` fails with the not-locked error
when the seat is not locked; fails with the single mismatch error when the
holder or the lock id differs; otherwise it succeeds, returning the seat to
available with all lease and holder fields cleared.  The success case
carries no condition on `lockExpiresAt` (the operation reads no clock), so
release succeeds whether or not the TTL has elapsed. -/
theorem unlockSeat_spec (seats : Seats) (seatId userId lockId : String) (seat : Seat)
    (hfind : findSeat seatId seats = some seat) :
    (seat.status ≠ SeatStatus.locked →
      unlockSeat seats seatId userId lockId
        = (UnlockOutcome.notLocked seat.status, seats)) ∧
    (seat.status = SeatStatus.locked →
      (seat.userId ≠ some userId ∨ seat.lockId ≠ some lockId) →
      unlockSeat seats seatId userId lockId = (UnlockOutcome.mismatch, seats)) ∧
    (seat.status = SeatStatus.locked → seat.userId = some userId →
      seat.lockId = some lockId →
      unlockSeat seats seatId userId lockId
        = (UnlockOutcome.success
             { seat with
               status := SeatStatus.available
               userId := none
               lockId := none
               lockedAt := none
               lockExpiresAt := none },
           setSeat seats seatId
             { seat with
               status := SeatStatus.available
               userId := none
               lockId := none
               lockedAt := none
               lockExpiresAt := none })) := by
  refine ⟨?_, ?_, ?_⟩
  · intro h1
    simp [unlockSeat, hfind, h1]
  · intro h1 h2
    simp [unlockSeat, hfind, h1, h2]
  · intro h1 h2 h3
    simp [unlockSeat, hfind, h1, h2, h3]

theorem unlockSeat_spec_witness :
    findSeat "A1" (lockSeat initializeSeats "A1" "alice" "L1" 0).2
      = some { mkSeat "A" 1 with
               status := SeatStatus.locked
               userId := some "alice"
               lockId := some "L1"
               lockedAt := some 0
               lockExpiresAt := some (0 + LOCK_DURATION) } ∧
    unlockSeat (lockSeat initializeSeats "A1" "alice" "L1" 0).2 "A1" "alice" "L1"
      = (UnlockOutcome.success (mkSeat "A" 1),
         setSeat (lockSeat initializeSeats "A1" "alice" "L1" 0).2 "A1" (mkSeat "A" 1)) :=
  ⟨by decide,
    (unlockSeat_spec (lockSeat initializeSeats "A1" "alice" "L1" 0).2 "A1" "alice" "L1"
        { mkSeat "A" 1 with
          status := SeatStatus.locked
          userId := some "alice"
          lockId := some "L1"
          lockedAt := some 0
          lockExpiresAt := some (0 + LOCK_DURATION) }
        (by decide)).2.2 (by decide) (by decide) (by decide)⟩

/-- C9: after `resetSeats`, every seat in the registry is available with no
holder, lock, lock timestamps, or booking timestamp, whatever the prior
state was. -/
theorem resetSeats_total (seats : Seats) (k : String) (s : Seat)
    (h : findSeat k (resetSeats seats) = some s) :
    s.status = SeatStatus.available ∧ s.userId = none ∧ s.lockId = none ∧
    s.lockedAt = none ∧ s.lockExpiresAt = none ∧ s.bookedAt = none := by
  unfold resetSeats at h
  have hmem : (k, s) ∈ initializeSeats := mem_of_findSeat h
  have hall : ∀ p ∈ initializeSeats,
      p.2.status = SeatStatus.available ∧ p.2.userId = none ∧ p.2.lockId = none ∧
      p.2.lockedAt = none ∧ p.2.lockExpiresAt = none ∧ p.2.bookedAt = none := by
    decide
  exact hall (k, s) hmem

theorem resetSeats_total_witness :
    findSeat "E8" (resetSeats (lockSeat initializeSeats "E8" "frank" "LF" 3).2)
      = some (mkSeat "E" 8) ∧
    (mkSeat "E" 8).status = SeatStatus.available ∧ (mkSeat "E" 8).userId = none ∧
    (mkSeat "E" 8).lockId = none ∧ (mkSeat "E" 8).lockedAt = none ∧
    (mkSeat "E" 8).lockExpiresAt = none ∧ (mkSeat "E" 8).bookedAt = none :=
  ⟨by decide,
    resetSeats_total (lockSeat initializeSeats "E8" "frank" "LF" 3).2 "E8"
      (mkSeat "E" 8) (by decide)⟩

theorem confirmBooking_cases (seats : Seats) (seatId userId lockId : String)
    (t1 t2 : Nat) :
    (findSeat seatId (cleanupExpiredLocks t1 seats) = none ∧
      confirmBooking seats seatId userId lockId t1 t2
        = (ConfirmOutcome.notFound, cleanupExpiredLocks t1 seats)) ∨
    (∃ seat, findSeat seatId (cleanupExpiredLocks t1 seats) = some seat ∧
      ((seat.status ≠ SeatStatus.locked ∧
         confirmBooking seats seatId userId lockId t1 t2
           = (ConfirmOutcome.notLocked seat.status, cleanupExpiredLocks t1 seats)) ∨
       (seat.status = SeatStatus.locked ∧ seat.userId ≠ some userId ∧
         confirmBooking seats seatId userId lockId t1 t2
           = (ConfirmOutcome.wrongUser, cleanupExpiredLocks t1 seats)) ∨
       (seat.status = SeatStatus.locked ∧ seat.userId = some userId ∧
         seat.lockId ≠ some lockId ∧
         confirmBooking seats seatId userId lockId t1 t2
           = (ConfirmOutcome.invalidLockId, cleanupExpiredLocks t1 seats)) ∨
       (seat.status = SeatStatus.locked ∧ seat.userId = some userId ∧
         seat.lockId = some lockId ∧ t2 > seat.lockExpiresAt.getD 0 ∧
         confirmBooking seats seatId userId lockId t1 t2
           = (ConfirmOutcome.lockExpired,
              setSeat (cleanupExpiredLocks t1 seats) seatId
                { seat with
                  status := SeatStatus.available
                  userId := none
                  lockId := none
                  lockedAt := none
                  lockExpiresAt := none })) ∨
       (seat.status = SeatStatus.locked ∧ seat.userId = some userId ∧
         seat.lockId = some lockId ∧ ¬t2 > seat.lockExpiresAt.getD 0 ∧
         confirmBooking seats seatId userId lockId t1 t2
           = (ConfirmOutcome.success
                { seat with
                  status := SeatStatus.booked
                  bookedAt := some t2
                  lockId := none
                  lockedAt := none
                  lockExpiresAt := none },
              setSeat (cleanupExpiredLocks t1 seats) seatId
                { seat with
                  status := SeatStatus.booked
                  bookedAt := some t2
                  lockId := none
                  lockedAt := none
                  lockExpiresAt := none })))) := by
  cases hf : findSeat seatId (cleanupExpiredLocks t1 seats) with
  | none => exact Or.inl ⟨rfl, by simp [confirmBooking, hf]⟩
  | some seat =>
    refine Or.inr ⟨seat, rfl, ?_⟩
    by_cases h1 : seat.status = SeatStatus.locked
    · by_cases h2 : seat.userId = some userId
      · by_cases h3 : seat.lockId = some lockId
        · by_cases h4 : t2 > seat.lockExpiresAt.getD 0
          · exact Or.inr (Or.inr (Or.inr (Or.inl
              ⟨h1, h2, h3, h4, by simp [confirmBooking, hf, h1, h2, h3, h4]⟩)))
          · exact Or.inr (Or.inr (Or.inr (Or.inr
              ⟨h1, h2, h3, h4, by simp [confirmBooking, hf, h1, h2, h3, h4]⟩)))
        · exact Or.inr (Or.inr (Or.inl
            ⟨h1, h2, h3, by simp [confirmBooking, hf, h1, h2, h3]⟩))
      · exact Or.inr (Or.inl ⟨h1, h2, by simp [confirmBooking, hf, h1, h2]⟩)
    · exact Or.inl ⟨h1, by simp [confirmBooking, hf, h1]⟩

theorem unlockSeat_cases (seats : Seats) (seatId userId lockId : String) :
    (findSeat seatId seats = none ∧
      unlockSeat seats seatId userId lockId = (UnlockOutcome.notFound, seats)) ∨
    (∃ seat, findSeat seatId seats = some seat ∧
      ((seat.status ≠ SeatStatus.locked ∧
         unlockSeat seats seatId userId lockId
           = (UnlockOutcome.notLocked seat.status, seats)) ∨
       (seat.status = SeatStatus.locked ∧
         (seat.userId ≠ some userId ∨ seat.lockId ≠ some lockId) ∧
         unlockSeat seats seatId userId lockId = (UnlockOutcome.mismatch, seats)) ∨
       (seat.status = SeatStatus.locked ∧ seat.userId = some userId ∧
         seat.lockId = some lockId ∧
         unlockSeat seats seatId userId lockId
           = (UnlockOutcome.success
                { seat with
                  status := SeatStatus.available
                  userId := none
                  lockId := none
                  lockedAt := none
                  lockExpiresAt := none },
              setSeat seats seatId
                { seat with
                  status := SeatStatus.available
                  userId := none
                  lockId := none
                  lockedAt := none
                  lockExpiresAt := none })))) := by
  cases hf : findSeat seatId seats with
  | none => exact Or.inl ⟨rfl, by simp [unlockSeat, hf]⟩
  | some seat =>
    refine Or.inr ⟨seat, rfl, ?_⟩
    by_cases h1 : seat.status = SeatStatus.locked
    · by_cases h2 : seat.userId = some userId
      · by_cases h3 : seat.lockId = some lockId
        · exact Or.inr (Or.inr ⟨h1, h2, h3, by simp [unlockSeat, hf, h1, h2, h3]⟩)
        · exact Or.inr (Or.inl ⟨h1, Or.inr h3, by simp [unlockSeat, hf, h1, h2, h3]⟩)
      · exact Or.inr (Or.inl ⟨h1, Or.inl h2, by simp [unlockSeat, hf, h1, h2]⟩)
    · exact Or.inl ⟨h1, by simp [unlockSeat, hf, h1]⟩

/-- C10: every `confirmBooking` failure other than the lock-expired outcome
leaves the registry exactly as the lazy expiration pass left it (so the
addressed seat is exactly as validation found it); the lock-expired failure
returns the addressed seat to available; every `unlockSeat` failure leaves
the registry untouched. -/
theorem failed_write_frame :
    (∀ (seats : Seats) (seatId userId lockId : String) (t1 t2 : Nat),
      ((confirmBooking seats seatId userId lockId t1 t2).1 = ConfirmOutcome.notFound ∨
       (∃ st, (confirmBooking seats seatId userId lockId t1 t2).1
          = ConfirmOutcome.notLocked st) ∨
       (confirmBooking seats seatId userId lockId t1 t2).1 = ConfirmOutcome.wrongUser ∨
       (confirmBooking seats seatId userId lockId t1 t2).1 = ConfirmOutcome.invalidLockId) →
      (confirmBooking seats seatId userId lockId t1 t2).2 = cleanupExpiredLocks t1 seats) ∧
    (∀ (seats : Seats) (seatId userId lockId : String) (t1 t2 : Nat),
      (confirmBooking seats seatId userId lockId t1 t2).1 = ConfirmOutcome.lockExpired →
      ∃ seat, findSeat seatId (cleanupExpiredLocks t1 seats) = some seat ∧
        findSeat seatId (confirmBooking seats seatId userId lockId t1 t2).2
          = some { seat with
                   status := SeatStatus.available
                   userId := none
                   lockId := none
                   lockedAt := none
                   lockExpiresAt := none }) ∧
    (∀ (seats : Seats) (seatId userId lockId : String),
      ((unlockSeat seats seatId userId lockId).1 = UnlockOutcome.notFound ∨
       (∃ st, (unlockSeat seats seatId userId lockId).1 = UnlockOutcome.notLocked st) ∨
       (unlockSeat seats seatId userId lockId).1 = UnlockOutcome.mismatch) →
      (unlockSeat seats seatId userId lockId).2 = seats) := by
  refine ⟨?_, ?_, ?_⟩
  · intro seats seatId userId lockId t1 t2 h
    rcases confirmBooking_cases seats seatId userId lockId t1 t2 with
      ⟨_, heq⟩ | ⟨seat, _, hcase⟩
    · rw [heq]
    · rcases hcase with ⟨_, heq⟩ | ⟨_, _, heq⟩ | ⟨_, _, _, heq⟩ |
        ⟨_, _, _, _, heq⟩ | ⟨_, _, _, _, heq⟩
      · rw [heq]
      · rw [heq]
      · rw [heq]
      · rw [heq] at h
        simp at h
      · rw [heq] at h
        simp at h
  · intro seats seatId userId lockId t1 t2 h
    rcases confirmBooking_cases seats seatId userId lockId t1 t2 with
      ⟨_, heq⟩ | ⟨seat, hf, hcase⟩
    · rw [heq] at h
      simp at h
    · rcases hcase with ⟨_, heq⟩ | ⟨_, _, heq⟩ | ⟨_, _, _, heq⟩ |
        ⟨_, _, _, _, heq⟩ | ⟨_, _, _, _, heq⟩
      · rw [heq] at h
        simp at h
      · rw [heq] at h
        simp at h
      · rw [heq] at h
        simp at h
      · refine ⟨seat, hf, ?_⟩
        rw [heq]
        simp [findSeat_setSeat, hf]
      · rw [heq] at h
        simp at h
  · intro seats seatId userId lockId h
    rcases unlockSeat_cases seats seatId userId lockId with
      ⟨_, heq⟩ | ⟨seat, _, hcase⟩
    · rw [heq]
    · rcases hcase with ⟨_, heq⟩ | ⟨_, _, heq⟩ | ⟨_, _, _, heq⟩
      · rw [heq]
      · rw [heq]
      · rw [heq] at h
        simp at h

theorem failed_write_frame_witness :
    (confirmBooking initializeSeats "A1" "u" "l" 0 0).1
      = ConfirmOutcome.notLocked SeatStatus.available ∧
    (confirmBooking initializeSeats "A1" "u" "l" 0 0).2
      = cleanupExpiredLocks 0 initializeSeats :=
  ⟨by decide,
    failed_write_frame.1 initializeSeats "A1" "u" "l" 0 0
      (Or.inr (Or.inl ⟨SeatStatus.available, by decide⟩))⟩

/-- C4 counterexample: an acquire on seat `A1` also mutates seat `B1`,
because the lazy expiration pass inside `lockSeat` sweeps the whole registry:
with `B1` holding a lock issued at 0 (expiring at 60000), the acquire of `A1`
at 70000 reclaims `B1`. -/
theorem lockSeat_cross_seat_mutation :
    findSeat "B1" (lockSeat (lockSeat initializeSeats "B1" "bob" "LB" 0).2
        "A1" "alice" "LA" 70000).2
      ≠ findSeat "B1" (lockSeat initializeSeats "B1" "bob" "LB" 0).2 := by
  decide

/-- C4 (amended): an acquire mutates at most the addressed seat and, through
the registry-wide lazy expiration pass, seats whose lock has expired at the
call's time; every other seat whose lock has not expired is identical before
and after the call, whether the acquire succeeds or fails. -/
theorem lockSeat_frame (seats : Seats) (seatId userId freshLockId : String)
    (now : Nat) (k : String) (hk : k ≠ seatId) (s : Seat)
    (hs : findSeat k seats = some s) (hexp : lockExpired now s = false) :
    findSeat k (lockSeat seats seatId userId freshLockId now).2 = some s := by
  have hclean : findSeat k (cleanupExpiredLocks now seats) = some s := by
    rw [findSeat_cleanup, hs]
    simp [expireSeat_of_not_expired now s hexp]
  unfold lockSeat
  cases hf : findSeat seatId (cleanupExpiredLocks now seats) with
  | none => simpa [hf] using hclean
  | some seat =>
    by_cases h1 : seat.status = SeatStatus.available
    · simp [hf, h1, findSeat_setSeat, hk, hclean]
    · simp [hf, h1, hclean]

theorem lockSeat_frame_witness :
    ("C1" : String) ≠ "A1" ∧
    findSeat "C1" (lockSeat initializeSeats "B1" "bob" "LB" 0).2
      = some (mkSeat "C" 1) ∧
    lockExpired 70000 (mkSeat "C" 1) = false ∧
    findSeat "C1"
        (lockSeat (lockSeat initializeSeats "B1" "bob" "LB" 0).2
          "A1" "alice" "LA" 70000).2
      = some (mkSeat "C" 1) :=
  ⟨by decide, by decide, by decide,
    lockSeat_frame (lockSeat initializeSeats "B1" "bob" "LB" 0).2
      "A1" "alice" "LA" 70000 "C1" (by decide) (mkSeat "C" 1)
      (by decide) (by decide)⟩

/-- C5 counterexample: `unlockSeat` performs no lazy expiration pass.  Seat
`A1` is locked at 0, so its lease expires at 60000; since `unlockSeat` reads
no clock, a release at any wall-clock time — in particular one past 60000 —
validates against the stale locked record and succeeds, instead of first
reclaiming the seat and failing with the not-locked error as the claim
requires. -/
theorem unlockSeat_skips_expiration :
    (unlockSeat (lockSeat initializeSeats "A1" "dave" "LD" 0).2
        "A1" "dave" "LD").1
      = UnlockOutcome.success (mkSeat "A" 1) ∧
    (unlockSeat (lockSeat initializeSeats "A1" "dave" "LD" 0).2
        "A1" "dave" "LD").1
      ≠ UnlockOutcome.notLocked SeatStatus.available := by
  decide

/-- C5 (amended): `lockSeat` and `confirmBooking` each decide on the state
left by the lazy expiration pass (a registry-wide sweep at the call's first
instant, covering the touched seat); `unlockSeat` performs no expiration
pass: it validates against the stored record, so a matching release succeeds
regardless of the lock's remaining TTL. -/
theorem lazy_expiration_per_operation :
    (∀ (seats : Seats) (seatId userId freshLockId : String) (now : Nat),
      lockSeat seats seatId userId freshLockId now
        = lockSeat (cleanupExpiredLocks now seats) seatId userId freshLockId now) ∧
    (∀ (seats : Seats) (seatId userId lockId : String) (t1 t2 : Nat),
      confirmBooking seats seatId userId lockId t1 t2
        = confirmBooking (cleanupExpiredLocks t1 seats) seatId userId lockId t1 t2) ∧
    (∀ (seats : Seats) (seatId userId lockId : String) (seat : Seat),
      findSeat seatId seats = some seat → seat.status = SeatStatus.locked →
      seat.userId = some userId → seat.lockId = some lockId →
      (unlockSeat seats seatId userId lockId).1
        = UnlockOutcome.success
            { seat with
              status := SeatStatus.available
              userId := none
              lockId := none
              lockedAt := none
              lockExpiresAt := none }) := by
  refine ⟨?_, ?_, ?_⟩
  · intro seats seatId userId freshLockId now
    simp [lockSeat, cleanup_idem]
  · intro seats seatId userId lockId t1 t2
    simp [confirmBooking, cleanup_idem]
  · intro seats seatId userId lockId seat hfind h1 h2 h3
    simp [unlockSeat, hfind, h1, h2, h3]

theorem lazy_expiration_per_operation_witness :
    findSeat "A1" (lockSeat initializeSeats "A1" "dave" "LD" 0).2
      = some { mkSeat "A" 1 with
               status := SeatStatus.locked
               userId := some "dave"
               lockId := some "LD"
               lockedAt := some 0
               lockExpiresAt := some (0 + LOCK_DURATION) } ∧
    (unlockSeat (lockSeat initializeSeats "A1" "dave" "LD" 0).2
        "A1" "dave" "LD").1
      = UnlockOutcome.success (mkSeat "A" 1) :=
  ⟨by decide,
    lazy_expiration_per_operation.2.2
      (lockSeat initializeSeats "A1" "dave" "LD" 0).2 "A1" "dave" "LD"
      { mkSeat "A" 1 with
        status := SeatStatus.locked
        userId := some "dave"
        lockId := some "LD"
        lockedAt := some 0
        lockExpiresAt := some (0 + LOCK_DURATION) }
      (by decide) (by decide) (by decide) (by decide)⟩

/-- C6 counterexample: seat `B3` locked at 40 expires at `40 + 60000`; read
at exactly that instant, `getSeatById` still reports it locked, because the
sweep reclaims only when `now` is strictly past `lockExpiresAt` — the claim's
"greater than or equal to T+Δ" fails at the boundary. -/
theorem observed_locked_at_exact_expiry :
    ((getSeatById (lockSeat initializeSeats "B3" "dave" "LB" 40).2 "B3"
        (40 + LOCK_DURATION)).1).map Seat.status = some SeatStatus.locked := by
  decide

/-- C6 (amended): for a seat locked with expiry `e`, at any time strictly
greater than `e` the sweep-backed observers (`getSeatById`, `getAllSeats`,
`getStatistics`) and the write operations `lockSeat` and `confirmBooking`
all see the seat as available — in particular an acquire by another actor
succeeds and a commit finds the seat no longer locked.  (`unlockSeat`
performs no expiration pass, so it is excluded; at exactly `e` the seat is
still observed locked, the sweep's comparison being strict.) -/
theorem expiration_self_heals (seats : Seats) (seatId : String) (seat : Seat)
    (e t : Nat) (userId2 freshLockId : String)
    (hfind : findSeat seatId seats = some seat)
    (hlock : seat.status = SeatStatus.locked)
    (hexp : seat.lockExpiresAt = some e)
    (ht : t > e)
    (_hdiff : seat.userId ≠ some userId2) :
    findSeat seatId (cleanupExpiredLocks t seats)
      = some { seat with
               status := SeatStatus.available
               userId := none
               lockId := none
               lockedAt := none
               lockExpiresAt := none } ∧
    (getSeatById seats seatId t).1
      = some { seat with
               status := SeatStatus.available
               userId := none
               lockId := none
               lockedAt := none
               lockExpiresAt := none } ∧
    (getAllSeats seats t).2 = cleanupExpiredLocks t seats ∧
    (getStatistics seats t).2 = cleanupExpiredLocks t seats ∧
    (lockSeat seats seatId userId2 freshLockId t).1
      = LockOutcome.success freshLockId (t + LOCK_DURATION)
          { seat with
            status := SeatStatus.locked
            userId := some userId2
            lockId := some freshLockId
            lockedAt := some t
            lockExpiresAt := some (t + LOCK_DURATION) } ∧
    (∀ (userId lockId : String) (t2 : Nat),
      (confirmBooking seats seatId userId lockId t t2).1
        = ConfirmOutcome.notLocked SeatStatus.available) := by
  have hexpired : lockExpired t seat = true := by
    simp [lockExpired, hlock, hexp]
    exact ht
  have hclean : findSeat seatId (cleanupExpiredLocks t seats)
      = some { seat with
               status := SeatStatus.available
               userId := none
               lockId := none
               lockedAt := none
               lockExpiresAt := none } := by
    rw [findSeat_cleanup, hfind]
    simp [expireSeat, hexpired]
  refine ⟨hclean, ?_, rfl, rfl, ?_, ?_⟩
  · simp [getSeatById, hclean]
  · simp [lockSeat, hclean]
  · intro userId lockId t2
    simp [confirmBooking, hclean]

theorem expiration_self_heals_witness :
    findSeat "B3" (lockSeat initializeSeats "B3" "dave" "LB" 40).2
      = some { mkSeat "B" 3 with
               status := SeatStatus.locked
               userId := some "dave"
               lockId := some "LB"
               lockedAt := some 40
               lockExpiresAt := some (40 + LOCK_DURATION) } ∧
    (getSeatById (lockSeat initializeSeats "B3" "dave" "LB" 40).2 "B3"
        (40 + LOCK_DURATION + 1)).1
      = some (mkSeat "B" 3) ∧
    (lockSeat (lockSeat initializeSeats "B3" "dave" "LB" 40).2 "B3" "erin" "LE"
        (40 + LOCK_DURATION + 1)).1
      = LockOutcome.success "LE" (40 + LOCK_DURATION + 1 + LOCK_DURATION)
          { mkSeat "B" 3 with
            status := SeatStatus.locked
            userId := some "erin"
            lockId := some "LE"
            lockedAt := some (40 + LOCK_DURATION + 1)
            lockExpiresAt := some (40 + LOCK_DURATION + 1 + LOCK_DURATION) } := by
  have h := expiration_self_heals (lockSeat initializeSeats "B3" "dave" "LB" 40).2
    "B3"
    { mkSeat "B" 3 with
      status := SeatStatus.locked
      userId := some "dave"
      lockId := some "LB"
      lockedAt := some 40
      lockExpiresAt := some (40 + LOCK_DURATION) }
    (40 + LOCK_DURATION) (40 + LOCK_DURATION + 1) "erin" "LE"
    (by decide) (by decide) (by decide) (by decide) (by decide)
  exact ⟨by decide, h.2.1, h.2.2.2.2.1⟩

theorem lockSeatRun_all_conflict (seatId : String) (now e : Nat) :
    ∀ (calls : List (String × String)) (seats : Seats) (ls : Seat),
      findSeat seatId seats = some ls → ls.status = SeatStatus.locked →
      ls.lockExpiresAt = some e → ¬now > e →
      (lockSeatRun seats seatId calls now).1.all
        (fun o => o = LockOutcome.conflict SeatStatus.locked) := by
  intro calls
  induction calls with
  | nil =>
    intro seats ls _ _ _ _
    simp [lockSeatRun]
  | cons c rest ih =>
    intro seats ls hfind hst hexp hle
    obtain ⟨u, f⟩ := c
    have hexpired : lockExpired now ls = false := by
      simp [lockExpired, hst, hexp, hle]
    have hclean : findSeat seatId (cleanupExpiredLocks now seats) = some ls := by
      rw [findSeat_cleanup, hfind]
      simp [expireSeat_of_not_expired now ls hexpired]
    have hcall : lockSeat seats seatId u f now
        = (LockOutcome.conflict ls.status, cleanupExpiredLocks now seats) := by
      simp [lockSeat, hclean, hst]
    simp only [lockSeatRun, hcall, List.all_cons, Bool.and_eq_true]
    exact ⟨by simp [hst], ih (cleanupExpiredLocks now seats) ls hclean hst hexp hle⟩

theorem countP_isLockSuccess_of_all_conflict (l : List LockOutcome)
    (hl : l.all (fun o => o = LockOutcome.conflict SeatStatus.locked) = true) :
    l.countP isLockSuccess = 0 := by
  rw [List.countP_eq_zero]
  intro a ha
  have h := List.all_eq_true.1 hl a ha
  simp only [decide_eq_true_eq] at h
  subst h
  simp [isLockSuccess]

/-- C1: for any number of acquire calls on one available seat by distinct
actors with distinct non-empty fresh lease identifiers, all arriving at the
same instant and serialized by the per-seat mutex (the critical sections are
synchronous, so the spin lock reduces concurrent calls to some sequential
order), exactly one call succeeds — the first to enter — and all others fail
with the conflict error carrying the `locked` state; the successful call's
lease identifier is the fresh token, which is non-empty and distinct from
every other issued token. -/
theorem mutual_exclusion (seats : Seats) (seatId : String) (now : Nat)
    (userId freshLockId : String) (rest : List (String × String)) (seat : Seat)
    (hfind : findSeat seatId seats = some seat)
    (hav : seat.status = SeatStatus.available)
    (_hactors : (userId :: rest.map Prod.fst).Pairwise (· ≠ ·))
    (_hfresh : (freshLockId :: rest.map Prod.snd).Pairwise (· ≠ ·))
    (hne : freshLockId ≠ "") :
    (lockSeatRun seats seatId ((userId, freshLockId) :: rest) now).1.countP
        isLockSuccess = 1 ∧
    (lockSeatRun seats seatId ((userId, freshLockId) :: rest) now).1.head?
      = some (LockOutcome.success freshLockId (now + LOCK_DURATION)
          { seat with
            status := SeatStatus.locked
            userId := some userId
            lockId := some freshLockId
            lockedAt := some now
            lockExpiresAt := some (now + LOCK_DURATION) }) ∧
    (lockSeatRun seats seatId ((userId, freshLockId) :: rest) now).1.tail.all
      (fun o => o = LockOutcome.conflict SeatStatus.locked) ∧
    freshLockId ≠ "" := by
  have hexpired : lockExpired now seat = false := by
    simp [lockExpired, hav]
  have hclean : findSeat seatId (cleanupExpiredLocks now seats) = some seat := by
    rw [findSeat_cleanup, hfind]
    simp [expireSeat_of_not_expired now seat hexpired]
  have hcall : lockSeat seats seatId userId freshLockId now
      = (LockOutcome.success freshLockId (now + LOCK_DURATION)
          { seat with
            status := SeatStatus.locked
            userId := some userId
            lockId := some freshLockId
            lockedAt := some now
            lockExpiresAt := some (now + LOCK_DURATION) },
         setSeat (cleanupExpiredLocks now seats) seatId
          { seat with
            status := SeatStatus.locked
            userId := some userId
            lockId := some freshLockId
            lockedAt := some now
            lockExpiresAt := some (now + LOCK_DURATION) }) := by
    simp [lockSeat, hclean, hav]
  have hfind2 : findSeat seatId
      (setSeat (cleanupExpiredLocks now seats) seatId
        { seat with
          status := SeatStatus.locked
          userId := some userId
          lockId := some freshLockId
          lockedAt := some now
          lockExpiresAt := some (now + LOCK_DURATION) })
      = some { seat with
          status := SeatStatus.locked
          userId := some userId
          lockId := some freshLockId
          lockedAt := some now
          lockExpiresAt := some (now + LOCK_DURATION) } := by
    rw [findSeat_setSeat]
    simp [hclean]
  have htail := lockSeatRun_all_conflict seatId now (now + LOCK_DURATION) rest
    (setSeat (cleanupExpiredLocks now seats) seatId
      { seat with
        status := SeatStatus.locked
        userId := some userId
        lockId := some freshLockId
        lockedAt := some now
        lockExpiresAt := some (now + LOCK_DURATION) })
    { seat with
      status := SeatStatus.locked
      userId := some userId
      lockId := some freshLockId
      lockedAt := some now
      lockExpiresAt := some (now + LOCK_DURATION) }
    hfind2 rfl rfl (by omega)
  refine ⟨?_, ?_, ?_, hne⟩
  · simp only [lockSeatRun, hcall, List.countP_cons]
    rw [countP_isLockSuccess_of_all_conflict _ htail]
    simp [isLockSuccess]
  · simp [lockSeatRun, hcall]
  · simpa [lockSeatRun, hcall] using htail

theorem mutual_exclusion_witness :
    findSeat "A1" initializeSeats = some (mkSeat "A" 1) ∧
    (mkSeat "A" 1).status = SeatStatus.available ∧
    (["alice", "bob", "carol"] : List String).Pairwise (· ≠ ·) ∧
    (["f1", "f2", "f3"] : List String).Pairwise (· ≠ ·) ∧
    ("f1" : String) ≠ "" ∧
    (lockSeatRun initializeSeats "A1"
        [("alice", "f1"), ("bob", "f2"), ("carol", "f3")] 100).1.countP
        isLockSuccess = 1 ∧
    (lockSeatRun initializeSeats "A1"
        [("alice", "f1"), ("bob", "f2"), ("carol", "f3")] 100).1.tail.all
      (fun o => o = LockOutcome.conflict SeatStatus.locked) := by
  have h := mutual_exclusion initializeSeats "A1" 100 "alice" "f1"
    [("bob", "f2"), ("carol", "f3")] (mkSeat "A" 1)
    (by decide) (by decide) (by decide) (by decide) (by decide)
  exact ⟨by decide, by decide, by decide, by decide, by decide, h.1, h.2.2.1⟩

theorem inv_init : InvAll initializeSeats := by
  intro k s h
  have hmem := mem_of_findSeat h
  have hall : ∀ p ∈ initializeSeats, SeatInv p.2 := by decide
  exact hall (k, s) hmem

theorem inv_expire (now : Nat) (s : Seat) (h : SeatInv s) :
    SeatInv (expireSeat now s) := by
  unfold expireSeat
  by_cases he : lockExpired now s = true
  · rw [if_pos he]
    simp [SeatInv]
  · rw [if_neg he]
    exact h

theorem invAll_cleanup (now : Nat) (seats : Seats) (h : InvAll seats) :
    InvAll (cleanupExpiredLocks now seats) := by
  intro k s hf
  rw [findSeat_cleanup] at hf
  cases hfind : findSeat k seats with
  | none =>
    rw [hfind] at hf
    simp at hf
  | some s0 =>
    rw [hfind] at hf
    simp at hf
    subst hf
    exact inv_expire now s0 (h k s0 hfind)

theorem invAll_setSeat (seats : Seats) (seatId : String) (s' : Seat)
    (h : InvAll seats) (hs' : SeatInv s') : InvAll (setSeat seats seatId s') := by
  intro k s hf
  rw [findSeat_setSeat] at hf
  by_cases hk : k = seatId
  · rw [if_pos hk] at hf
    cases hfind : findSeat seatId seats with
    | none =>
      rw [hfind] at hf
      simp at hf
    | some s0 =>
      rw [hfind] at hf
      simp at hf
      subst hf
      exact hs'
  · rw [if_neg hk] at hf
    exact h k s hf

theorem invAll_lockSeat (seats : Seats) (seatId userId freshLockId : String)
    (now : Nat) (h : InvAll seats) :
    InvAll (lockSeat seats seatId userId freshLockId now).2 := by
  have hclean := invAll_cleanup now seats h
  cases hf : findSeat seatId (cleanupExpiredLocks now seats) with
  | none =>
    have heq : (lockSeat seats seatId userId freshLockId now).2
        = cleanupExpiredLocks now seats := by
      simp [lockSeat, hf]
    rw [heq]
    exact hclean
  | some seat =>
    by_cases h1 : seat.status = SeatStatus.available
    · have heq : (lockSeat seats seatId userId freshLockId now).2
          = setSeat (cleanupExpiredLocks now seats) seatId
              { seat with
                status := SeatStatus.locked
                userId := some userId
                lockId := some freshLockId
                lockedAt := some now
                lockExpiresAt := some (now + LOCK_DURATION) } := by
        simp [lockSeat, hf, h1]
      rw [heq]
      refine invAll_setSeat _ _ _ hclean ?_
      simp [SeatInv]
    · have heq : (lockSeat seats seatId userId freshLockId now).2
          = cleanupExpiredLocks now seats := by
        simp [lockSeat, hf, h1]
      rw [heq]
      exact hclean

theorem invAll_confirmBooking (seats : Seats) (seatId userId lockId : String)
    (t1 t2 : Nat) (h : InvAll seats) :
    InvAll (confirmBooking seats seatId userId lockId t1 t2).2 := by
  have hclean := invAll_cleanup t1 seats h
  rcases confirmBooking_cases seats seatId userId lockId t1 t2 with
    ⟨_, heq⟩ | ⟨seat, hf, hcase⟩
  · rw [heq]
    exact hclean
  · rcases hcase with ⟨_, heq⟩ | ⟨_, _, heq⟩ | ⟨_, _, _, heq⟩ |
      ⟨h1, h2, h3, h4, heq⟩ | ⟨h1, h2, h3, h4, heq⟩
    · rw [heq]
      exact hclean
    · rw [heq]
      exact hclean
    · rw [heq]
      exact hclean
    · rw [heq]
      refine invAll_setSeat _ _ _ hclean ?_
      simp [SeatInv]
    · rw [heq]
      refine invAll_setSeat _ _ _ hclean ?_
      have huser : seat.userId ≠ none := ((hclean seatId seat hf).2.1 h1).1
      simp [SeatInv, huser]

theorem invAll_unlockSeat (seats : Seats) (seatId userId lockId : String)
    (h : InvAll seats) : InvAll (unlockSeat seats seatId userId lockId).2 := by
  rcases unlockSeat_cases seats seatId userId lockId with
    ⟨_, heq⟩ | ⟨seat, hf, hcase⟩
  · rw [heq]
    exact h
  · rcases hcase with ⟨_, heq⟩ | ⟨_, _, heq⟩ | ⟨_, _, _, heq⟩
    · rw [heq]
      exact h
    · rw [heq]
      exact h
    · rw [heq]
      refine invAll_setSeat _ _ _ h ?_
      simp [SeatInv]

theorem reachable_invAll : ∀ (seats : Seats), Reachable seats → InvAll seats := by
  intro seats h
  induction h with
  | init => exact inv_init
  | lock seats1 seatId userId freshLockId now _ ih =>
    exact invAll_lockSeat seats1 seatId userId freshLockId now ih
  | confirm seats1 seatId userId lockId t1 t2 _ ih =>
    exact invAll_confirmBooking seats1 seatId userId lockId t1 t2 ih
  | unlock seats1 seatId userId lockId _ ih =>
    exact invAll_unlockSeat seats1 seatId userId lockId ih
  | sweep seats1 now _ ih =>
    exact invAll_cleanup now seats1 ih
  | reset seats1 _ _ =>
    exact inv_init

/-- C8: in every registry state reachable from initialization by any
sequence of lock, confirm, unlock, sweep and reset operations, every seat
satisfies the record invariant: available iff holder, lock id and both lock
timestamps are all null; locked implies all four set with
`lockExpiresAt = lockedAt + LOCK_DURATION`; booked implies holder and
booking timestamp set and the lock fields cleared. -/
theorem seat_invariants (seats : Seats) (h : Reachable seats) (k : String)
    (s : Seat) (hf : findSeat k seats = some s) : SeatInv s :=
  reachable_invAll seats h k s hf

theorem seat_invariants_witness :
    findSeat "A1" initializeSeats = some (mkSeat "A" 1) ∧ SeatInv (mkSeat "A" 1) :=
  ⟨by decide,
    seat_invariants initializeSeats Reachable.init "A1" (mkSeat "A" 1) (by decide)⟩
